import Mathlib

/-!
Shallow embedding of the turn-taking orchestration core of the
"a penny for my thoughts" journaling application, together with proofs
about its documented behaviour.

The embedded functions follow the backend service code
(ChatService.send_message, ChatService.stream_message,
RAGService.retrieve_context, JournalService.save_journal) and the
browser-side client code (ChatContext.sendMessage, ChatProvider.sendMessage,
streamChatMessage).  External collaborators (the completion provider, the
embedding/vector search backend, the SQLite store) are modelled as fields of
an environment record; fallible calls return Except.  Similarity scores are
modelled as rationals.
-/

/-- Message roles, following the backend Message model. -/
inductive Role where
  | user
  | assistant
  | system
deriving DecidableEq, Repr

/-- A chat message.  The opaque id, timestamp and metadata fields of the
source model are irrelevant to the verified properties and are omitted;
role and content are kept. -/
structure Message where
  role : Role
  content : String
deriving DecidableEq, Repr

/-- A retrieved context chunk, following the RetrievedContext model:
content plus a similarity score (a float in the unit interval in the
source, modelled as a rational).  The source metadata map is omitted. -/
structure RetrievedContext where
  content : String
  similarity_score : ℚ
deriving DecidableEq, Repr

/-- A persisted conversation (journal): id, title and the ordered message
sequence, following the backend journal model. -/
structure Journal where
  id : String
  title : String
  messages : List Message
deriving DecidableEq, Repr

/-- The Message Store state: an association of session ids to journals,
newest first.  Stands for the SQLite-backed DatabaseStorage contents. -/
abbrev Store : Type := List (String × Journal)

/-- The external collaborators of one turn, as an environment record:
the vector similarity search, the completion provider (batch call,
streaming call, and the secondary title-generation call), and whether the
database save succeeds.  Fallible calls return Except; the streaming call
returns the chunk contents delivered before the stream either finished
(none) or raised (some error). -/
structure Env where
  similaritySearch : String → Nat → Except String (List RetrievedContext)
  complete : List Message → Except String String
  streamRaw : List Message → List String × Option String
  generateTitle : List Message → Except String String
  dbSaveOk : Bool
  freshId : String

/-- Stream events emitted by ChatService.stream_message, mirroring the
StreamEvent model: the data payload is reduced to the claim-relevant part
(contexts for context events, the text fragment for token events, the
auto_saved flag for done events, the message for error events). -/
inductive StreamEvent where
  | context (contexts : List RetrievedContext)
  | token (content : String)
  | done (auto_saved : Bool)
  | error (message : String)
deriving DecidableEq, Repr

namespace StreamEvent

/-- Whether an event is terminal (done or error). -/
def isTerminal : StreamEvent → Bool
  | .done _ => true
  | .error _ => true
  | _ => false

/-- The fragment carried by a token event, if any. -/
def tokenContent? : StreamEvent → Option String
  | .token c => some c
  | _ => none

end StreamEvent

/-- Accumulation of streamed fragments by appending, mirroring the
`ai_response_content += token` loop of the source. -/
def concatTokens (l : List String) : String :=
  l.foldl (· ++ ·) ""

namespace RAGService

/-- RAGService.retrieve_context: runs the similarity search for top_k
candidates, filters out candidates below the similarity threshold, and
returns the rest; any failure of the embedding/search call is caught and
yields the empty list (graceful degradation). -/
def retrieve_context (env : Env) (query : String) (top_k : Nat)
    (similarity_threshold : ℚ) : List RetrievedContext :=
  match env.similaritySearch query top_k with
  | .error _ => []
  | .ok results => results.filter (fun ctx => similarity_threshold ≤ ctx.similarity_score)

end RAGService

/-- Modelled from the spec: the body of VectorStorage.similarity_search
(backend/app/storage/vector_storage.py) is not under src/; section 4.3 of
the spec specifies that search results come back "ranked descending by
similarity_score".  SearchRanked states that contract for an environment:
every successful search result is pairwise descending in score. -/
def SearchRanked (env : Env) : Prop :=
  ∀ q k results, env.similaritySearch q k = .ok results →
    results.Pairwise (fun a b => b.similarity_score ≤ a.similarity_score)

/-- A list of chunks in descending similarity order. -/
def DescendingScores (l : List RetrievedContext) : Prop :=
  l.Pairwise (fun a b => b.similarity_score ≤ a.similarity_score)

/-- Modelled from the spec: ChatService._build_llm_messages is called from
the source but its body is not under src/; per section 4.1 step 2 the
prompt is a system instruction, a context-injection message built from the
retrieved chunks (omitted when there are none), the full prior history,
and the new user message. -/
def build_llm_messages (current_message : String) (history : List Message)
    (contexts : List RetrievedContext) : List Message :=
  [⟨Role.system, "journal companion instructions"⟩]
    ++ (if contexts.isEmpty then []
        else [⟨Role.system, concatTokens (contexts.map (·.content))⟩])
    ++ history
    ++ [⟨Role.user, current_message⟩]

namespace LLMService

/-- LLMService.stream_complete: forwards the provider chunks, skipping
chunks whose delta content is empty, and reports the terminal provider
error when the underlying stream raised. -/
def stream_complete (env : Env) (messages : List Message) :
    List String × Option String :=
  let raw := env.streamRaw messages
  (raw.1.filter (fun c => !c.isEmpty), raw.2)

end LLMService

namespace DatabaseStorage

/-- DatabaseStorage.get_journal_by_session_id: first journal recorded for
the session. -/
def get_journal_by_session_id : Store → String → Option Journal
  | [], _ => none
  | e :: rest, sid => if e.1 = sid then some e.2 else get_journal_by_session_id rest sid

/-- Modelled from the spec: the body of DatabaseStorage.save_journal
(backend/app/storage/database.py) is not under src/; per section 4.1
step 5 the store saves the complete message sequence, updating the
existing conversation in place when a journal_id is supplied and creating
a fresh conversation for the session otherwise.  The dbSaveOk flag models
a failure of the storage engine itself. -/
def save_journal (env : Env) (store : Store) (session_id : String)
    (messages : List Message) (title : String) (journal_id : Option String) :
    Except String Store :=
  if env.dbSaveOk then
    match journal_id with
    | some jid =>
        .ok (store.map (fun e =>
          if e.2.id = jid then (e.1, ⟨jid, title, messages⟩) else e))
    | none => .ok ((session_id, ⟨env.freshId, title, messages⟩) :: store)
  else .error "database save failed"

end DatabaseStorage

namespace JournalService

/-- JournalService.save_journal: generates a title when neither a journal
id nor a title was supplied, then saves through the database storage.
The follow-up vector indexing of the source is best-effort (its failure is
caught and never fails the save) and touches no state modelled here. -/
def save_journal (env : Env) (store : Store) (session_id : String)
    (messages : List Message) (journal_id : Option String)
    (title : Option String) : Except String Store :=
  match (if journal_id.isNone && title.isNone
         then (env.generateTitle messages).map some
         else .ok title) with
  | .error e => .error e
  | .ok t =>
      DatabaseStorage.save_journal env store session_id messages
        (t.getD "Untitled Journal") journal_id

end JournalService

namespace ChatService

/-- ChatService step 5 head (shared verbatim by send_message and
stream_message): decide which journal id and title to save under.  When
the prior history is nonempty, look the session up in the store and reuse
the id and title of the existing journal if there is one, generating a
title otherwise; when the prior history is empty, always generate a title
via the secondary completion call, without consulting the store. -/
def titleAndId (env : Env) (store : Store) (session_id : String)
    (conversation_history complete_conversation : List Message) :
    Except String (Option String × String) :=
  if conversation_history.isEmpty then
    match env.generateTitle complete_conversation with
    | .error e => .error e
    | .ok t => .ok (none, t)
  else
    match DatabaseStorage.get_journal_by_session_id store session_id with
    | some j => .ok (some j.id, j.title)
    | none =>
        match env.generateTitle complete_conversation with
        | .error e => .error e
        | .ok t => .ok (none, t)

/-- ChatService step 5 (shared by send_message and stream_message): the
auto-save block.  An exception while determining the title or journal id
is caught by the outer handler and leaves auto_saved false with the store
untouched; a failure of the journal-service save itself is caught by the
inner handler, logged, and — as in the source — auto_saved is still set
to true afterwards. -/
def auto_save (env : Env) (store : Store) (session_id : String)
    (conversation_history complete_conversation : List Message) :
    Bool × Store :=
  match titleAndId env store session_id conversation_history complete_conversation with
  | .error _ => (false, store)
  | .ok (journal_id, title) =>
      match JournalService.save_journal env store session_id
        complete_conversation journal_id (some title) with
      | .error _ => (true, store)
      | .ok store2 => (true, store2)

/-- The non-streaming chat result: assistant message, retrieved context
chunks and the auto_saved flag (the timing metadata of the source is not
modelled). -/
structure ChatResponse where
  message : Message
  retrieved_context : List RetrievedContext
  auto_saved : Bool
deriving DecidableEq, Repr

/-- ChatService.send_message: retrieval (best-effort), prompt assembly,
batch completion (failures propagate), then the auto-save block; returns
the response or the completion error, together with the resulting store
state. -/
def send_message (env : Env) (store : Store) (message : String)
    (session_id : String) (conversation_history : List Message)
    (use_rag : Bool) : Except String ChatResponse × Store :=
  let retrieved_context :=
    if use_rag then RAGService.retrieve_context env message 5 (7/10) else []
  let messages_for_llm :=
    build_llm_messages message conversation_history retrieved_context
  match env.complete messages_for_llm with
  | .error e => (.error e, store)
  | .ok ai_response_content =>
      let ai_message : Message := ⟨Role.assistant, ai_response_content⟩
      let user_message : Message := ⟨Role.user, message⟩
      let complete_conversation :=
        conversation_history ++ [user_message, ai_message]
      let saved := auto_save env store session_id conversation_history
        complete_conversation
      (.ok ⟨ai_message, retrieved_context, saved.1⟩, saved.2)

/-- ChatService.stream_message: retrieval (best-effort) with a context
event emitted whenever retrieval ran, token events for every nonempty
provider fragment in order, then the auto-save block and a single done
event — or, when the provider stream raised, a single error event after
the fragments already delivered, with no persistence. -/
def stream_message (env : Env) (store : Store) (message : String)
    (session_id : String) (conversation_history : List Message)
    (use_rag : Bool) : List StreamEvent × Store :=
  let retrieved_context :=
    if use_rag then RAGService.retrieve_context env message 5 (7/10) else []
  let contextEvents :=
    if use_rag then [StreamEvent.context retrieved_context] else []
  let messages_for_llm :=
    build_llm_messages message conversation_history retrieved_context
  let streamed := LLMService.stream_complete env messages_for_llm
  let tokenEvents := streamed.1.map StreamEvent.token
  match streamed.2 with
  | some e => (contextEvents ++ tokenEvents ++ [StreamEvent.error e], store)
  | none =>
      let ai_message : Message := ⟨Role.assistant, concatTokens streamed.1⟩
      let user_message : Message := ⟨Role.user, message⟩
      let complete_conversation :=
        conversation_history ++ [user_message, ai_message]
      let saved := auto_save env store session_id conversation_history
        complete_conversation
      (contextEvents ++ tokenEvents ++ [StreamEvent.done saved.1], saved.2)

end ChatService

/-- The client-visible outcome of one client turn: the resulting message
list state and the surfaced error, if any. -/
structure ClientEnv where
  streamEvents : List StreamEvent
  streamThrows : Option String
  nonStream : Except String Message

namespace ChatContext

/-- The for-await loop over stream events inside handleStreamingMessage:
token events extend the accumulated content, a done event appends the
assistant message built from the accumulated content to the message list
state, and an error event throws, ending the iteration.  Returns the
message list state together with the thrown error, if any. -/
def processStreamEvents : List StreamEvent → String → List Message →
    List Message × Option String
  | [], _, msgs => (msgs, none)
  | .token c :: rest, fullContent, msgs =>
      processStreamEvents rest (fullContent ++ c) msgs
  | .context _ :: rest, fullContent, msgs =>
      processStreamEvents rest fullContent msgs
  | .done _ :: rest, fullContent, msgs =>
      processStreamEvents rest fullContent
        (msgs ++ [⟨Role.assistant, fullContent⟩])
  | .error m :: _, _, msgs => (msgs, some m)

/-- handleStreamingMessage: consume the streaming call.  The generator
itself may throw after delivering its events (network drop before a
terminal event); an error event received from the stream is rethrown. -/
def handleStreamingMessage (cenv : ClientEnv) (msgs : List Message) :
    List Message × Option String :=
  match processStreamEvents cenv.streamEvents "" msgs with
  | (msgs2, some e) => (msgs2, some e)
  | (msgs2, none) => (msgs2, cenv.streamThrows)

/-- ChatContext.sendMessage (streaming-capable client variant): append the
user message optimistically; when streaming is preferred, try the
streaming call and on any failure fall back, once, to the non-streaming
call; an unrecoverable failure removes the last message from the state
(the optimistic user message) and surfaces the error. -/
def sendMessage (cenv : ClientEnv) (messages : List Message)
    (content : String) (useStreaming : Bool) :
    List Message × Option String :=
  let userMessage : Message := ⟨Role.user, content⟩
  let optimistic := messages ++ [userMessage]
  let attempt : List Message × Option String :=
    if useStreaming then
      match handleStreamingMessage cenv optimistic with
      | (msgs2, none) => (msgs2, none)
      | (msgs2, some _) =>
          match cenv.nonStream with
          | .ok am => (msgs2 ++ [am], none)
          | .error e => (msgs2, some e)
    else
      match cenv.nonStream with
      | .ok am => (optimistic ++ [am], none)
      | .error e => (optimistic, some e)
  match attempt with
  | (msgs2, none) => (msgs2, none)
  | (msgs2, some e) => (msgs2.dropLast, some e)

end ChatContext

namespace ChatProvider

/-- ChatProvider.sendMessage (non-streaming client variant): append the
user message optimistically, call the non-streaming chat API with the
full history, append the assistant reply on success; on error, remove the
last message (the optimistic user message) and surface the error. -/
def sendMessage (cenv : ClientEnv) (messages : List Message)
    (content : String) : List Message × Option String :=
  let userMessage : Message := ⟨Role.user, content⟩
  let optimistic := messages ++ [userMessage]
  match cenv.nonStream with
  | .ok am => (optimistic ++ [am], none)
  | .error e => ((optimistic).dropLast, some e)

end ChatProvider

/-- Splits a character stream into the complete (newline-terminated)
lines and the trailing remainder, mirroring the buffer management of
streamChatMessage: `buffer.split` on the newline character followed by
popping the last element back into the buffer. -/
def splitLines : List Char → List (List Char) × List Char
  | [] => ([], [])
  | c :: rest =>
      if c = '\n' then
        let s := splitLines rest
        ([] :: s.1, s.2)
      else
        match splitLines rest with
        | (l :: ls, rem) => ((c :: l) :: ls, rem)
        | ([], rem) => ([], c :: rem)

/-- One parsed SSE line of streamChatMessage: lines carrying the SSE data
marker have the marker removed and the payload handed to the JSON parser
(modelled as an arbitrary partial function, since payload syntax is not
claim-relevant); a payload that fails to parse, and any line without the
marker, yields nothing. -/
def handleLine {α : Type} (parse : List Char → Option α) (line : List Char) :
    Option α :=
  if "data: ".toList.isPrefixOf line then parse (line.drop 6) else none

/-- The read loop of streamChatMessage over the decoded chunks: extend the
buffer with the chunk, split off the complete lines, emit the events of
those lines in order, and keep the incomplete remainder buffered for the
next read; the remainder left when the stream ends is discarded. -/
def processChunks {α : Type} (parse : List Char → Option α) :
    List Char → List (List Char) → List α
  | _, [] => []
  | buffer, chunk :: rest =>
      let s := splitLines (buffer ++ chunk)
      s.1.filterMap (handleLine parse) ++ processChunks parse s.2 rest

/-- streamChatMessage (client SSE parsing): the events yielded for a
stream delivered as the given chunks, starting from an empty buffer. -/
def streamChatMessage {α : Type} (parse : List Char → Option α)
    (chunks : List (List Char)) : List α :=
  processChunks parse [] chunks

/-- The events of a fully assembled stream: the complete lines carrying
the SSE data marker whose payload parses, in stream order. -/
def sseEventsOf {α : Type} (parse : List Char → Option α)
    (s : List Char) : List α :=
  (splitLines s).1.filterMap (handleLine parse)

theorem splitLines_cons (c : Char) (s : List Char) :
    splitLines (c :: s) =
      if c = '\n' then ([] :: (splitLines s).1, (splitLines s).2)
      else match splitLines s with
        | (l :: ls, rem) => ((c :: l) :: ls, rem)
        | ([], rem) => ([], c :: rem) := by
  rfl

theorem splitLines_append (s t : List Char) :
    splitLines (s ++ t) =
      ((splitLines s).1 ++ (splitLines ((splitLines s).2 ++ t)).1,
       (splitLines ((splitLines s).2 ++ t)).2) := by
  induction s with
  | nil => simp [splitLines]
  | cons c s ih =>
    by_cases hc : c = '\n'
    · subst hc
      simp [List.cons_append, splitLines_cons, ih]
    · rcases hs : splitLines s with ⟨ls, rem⟩
      cases ls with
      | nil =>
        have hcs : splitLines (c :: s) = ([], c :: rem) := by
          simp [splitLines_cons, hc, hs]
        rw [List.cons_append, splitLines_cons, if_neg hc, ih, hs, hcs]
        simp only [List.nil_append, List.cons_append]
        rcases hr : splitLines (rem ++ t) with ⟨ls', rem'⟩
        cases ls' with
        | nil => simp [splitLines_cons, hc, hr]
        | cons l' ls' => simp [splitLines_cons, hc, hr]
      | cons l ls =>
        have hcs : splitLines (c :: s) = ((c :: l) :: ls, rem) := by
          simp [splitLines_cons, hc, hs]
        rw [List.cons_append, splitLines_cons, if_neg hc, ih, hs, hcs]
        simp

theorem splitLines_of_no_newline (s : List Char) (h : '\n' ∉ s) :
    splitLines s = ([], s) := by
  induction s with
  | nil => rfl
  | cons c s ih =>
    have hc : c ≠ '\n' := fun hc => h (hc ▸ List.mem_cons_self c s)
    have hs : '\n' ∉ s := fun hm => h (List.mem_cons_of_mem c hm)
    rw [splitLines_cons, if_neg hc, ih hs]

theorem no_newline_splitLines_snd (s : List Char) : '\n' ∉ (splitLines s).2 := by
  induction s with
  | nil => simp [splitLines]
  | cons c s ih =>
    by_cases hc : c = '\n'
    · subst hc; simpa [splitLines_cons] using ih
    · rcases hs : splitLines s with ⟨ls, rem⟩
      rw [hs] at ih
      cases ls with
      | nil =>
        rw [splitLines_cons, if_neg hc, hs]
        simpa [Ne.symm hc] using ih
      | cons l ls => rw [splitLines_cons, if_neg hc, hs]; exact ih

theorem processChunks_eq_of_no_newline {α : Type} (parse : List Char → Option α)
    (chunks : List (List Char)) (buffer : List Char) (hb : '\n' ∉ buffer) :
    processChunks parse buffer chunks = sseEventsOf parse (buffer ++ chunks.flatten) := by
  induction chunks generalizing buffer with
  | nil =>
    simp [processChunks, sseEventsOf, splitLines_of_no_newline buffer hb]
  | cons chunk rest ih =>
    rw [processChunks,
      ih (splitLines (buffer ++ chunk)).2 (no_newline_splitLines_snd _)]
    unfold sseEventsOf
    rw [List.flatten_cons, ← List.append_assoc,
      splitLines_append (buffer ++ chunk) rest.flatten, List.filterMap_append]

/-- C10: for every SSE stream and every way of splitting it into read
chunks, the client-side streamChatMessage generator yields the same event
sequence — exactly the complete lines carrying the SSE data marker whose
payload parses, in stream order, with unparseable payloads skipped and a
line split across chunk boundaries buffered until its newline arrives —
so re-chunking the input never changes, drops, or duplicates events. -/
theorem C10_streamChatMessage_rechunking_invariant :
    (∀ (α : Type) (parse : List Char → Option α) (chunks : List (List Char)),
        streamChatMessage parse chunks = sseEventsOf parse chunks.flatten)
    ∧ (∀ (α : Type) (parse : List Char → Option α)
        (cs1 cs2 : List (List Char)), cs1.flatten = cs2.flatten →
        streamChatMessage parse cs1 = streamChatMessage parse cs2) := by
  have base : ∀ (α : Type) (parse : List Char → Option α)
      (chunks : List (List Char)),
      streamChatMessage parse chunks = sseEventsOf parse chunks.flatten := by
    intro α parse chunks
    unfold streamChatMessage
    rw [processChunks_eq_of_no_newline parse chunks [] (by simp)]
    rfl
  refine ⟨base, ?_⟩
  intro α parse cs1 cs2 hflat
  rw [base, base, hflat]

/-- JSON-payload parser stand-in for the C10 witness: accepts only the
payload consisting of the single digit 1. -/
def parseDigitOne : List Char → Option Nat :=
  fun l => if l = ['1'] then some 1 else none

/-- First chunking of the witness SSE stream: a line split across the
chunk boundary, an unparseable payload, and a trailing incomplete line. -/
def sseChunksA : List (List Char) :=
  ["data: 1\nda".toList, "ta: x\ndata: 1".toList]

/-- Second chunking of the same byte stream as sseChunksA. -/
def sseChunksB : List (List Char) :=
  ["data: 1\ndata: x\n".toList, "data: 1".toList]

theorem C10_streamChatMessage_rechunking_invariant_witness :
    sseChunksA.flatten = sseChunksB.flatten
    ∧ streamChatMessage parseDigitOne sseChunksA
        = streamChatMessage parseDigitOne sseChunksB
    ∧ streamChatMessage parseDigitOne sseChunksA = [1] :=
  ⟨rfl,
   C10_streamChatMessage_rechunking_invariant.2 Nat parseDigitOne
     sseChunksA sseChunksB rfl,
   rfl⟩

/-- C5: retrieveContext never returns a chunk below the threshold, and —
given the ranked-search contract of the vector store — the returned
chunks are in descending order of similarity_score. -/
theorem C5_retrieve_context_threshold_and_order
    (env : Env) (q : String) (k : Nat) (threshold : ℚ)
    (hrank : SearchRanked env) :
    (∀ c ∈ RAGService.retrieve_context env q k threshold,
        threshold ≤ c.similarity_score)
    ∧ DescendingScores (RAGService.retrieve_context env q k threshold) := by
  unfold RAGService.retrieve_context
  cases hs : env.similaritySearch q k with
  | error e => exact ⟨by simp, by simp [DescendingScores]⟩
  | ok results =>
    refine ⟨?_, ?_⟩
    · intro c hc
      simpa using (List.mem_filter.mp hc).2
    · exact (hrank q k results hs).filter _

/-- The scenario chunks of C5: candidates with scores 0.95, 0.9, 0.75
and 0.6. -/
def chunk095 : RetrievedContext := ⟨"a", 19/20⟩

def chunk09 : RetrievedContext := ⟨"b", 9/10⟩

def chunk075 : RetrievedContext := ⟨"c", 3/4⟩

def chunk06 : RetrievedContext := ⟨"d", 3/5⟩

/-- Environment for the C5 scenario: the search returns the four
candidate chunks ranked descending. -/
def envC5 : Env where
  similaritySearch := fun _ _ => .ok [chunk095, chunk09, chunk075, chunk06]
  complete := fun _ => .ok "ok"
  streamRaw := fun _ => ([], none)
  generateTitle := fun _ => .ok "t"
  dbSaveOk := true
  freshId := "jid"

theorem C5_retrieve_context_threshold_and_order_witness :
    RAGService.retrieve_context envC5 "query" 5 (7/10)
      = [chunk095, chunk09, chunk075]
    ∧ (∀ c ∈ RAGService.retrieve_context envC5 "query" 5 (7/10),
        (7/10 : ℚ) ≤ c.similarity_score)
    ∧ DescendingScores (RAGService.retrieve_context envC5 "query" 5 (7/10)) := by
  have hrank : SearchRanked envC5 := by
    intro q k results h
    simp only [envC5, Except.ok.injEq] at h
    subst h
    norm_num [chunk095, chunk09, chunk075, chunk06, List.pairwise_cons]
  refine ⟨?_, ?_, ?_⟩
  · have hs : envC5.similaritySearch "query" 5
        = .ok [chunk095, chunk09, chunk075, chunk06] := rfl
    simp only [RAGService.retrieve_context, hs]
    norm_num [List.filter, chunk095, chunk09, chunk075, chunk06]
  · exact (C5_retrieve_context_threshold_and_order envC5 "query" 5 (7/10) hrank).1
  · exact (C5_retrieve_context_threshold_and_order envC5 "query" 5 (7/10) hrank).2

/-- C6: when the embedding or search call fails, retrieveContext returns
the empty sequence instead of raising, and the orchestrated turn still
runs generation and completes successfully. -/
theorem C6_retrieval_failure_never_blocks_turn
    (env : Env) (store : Store) (m sid e full : String) (h : List Message)
    (hsearch : env.similaritySearch m 5 = .error e)
    (hcomp : env.complete (build_llm_messages m h []) = .ok full) :
    RAGService.retrieve_context env m 5 (7/10) = []
    ∧ ∃ resp store2,
        ChatService.send_message env store m sid h true = (.ok resp, store2)
        ∧ resp.message = ⟨Role.assistant, full⟩ := by
  have hret : RAGService.retrieve_context env m 5 (7/10) = [] := by
    unfold RAGService.retrieve_context
    rw [hsearch]
  refine ⟨hret, ?_⟩
  simp only [ChatService.send_message, if_true, hret, hcomp]
  exact ⟨_, _, rfl, rfl⟩

/-- Environment for the C6 witness: the search backend is down, the
completion provider answers normally. -/
def envC6 : Env where
  similaritySearch := fun _ _ => .error "embedding backend down"
  complete := fun _ => .ok "Hi there"
  streamRaw := fun _ => (["Hi ", "there"], none)
  generateTitle := fun _ => .ok "Morning entry"
  dbSaveOk := true
  freshId := "j-c6"

theorem C6_retrieval_failure_never_blocks_turn_witness :
    RAGService.retrieve_context envC6 "Hello" 5 (7/10) = []
    ∧ ∃ resp store2,
        ChatService.send_message envC6 [] "Hello" "s1" [] true
          = (.ok resp, store2)
        ∧ resp.message = ⟨Role.assistant, "Hi there"⟩ :=
  C6_retrieval_failure_never_blocks_turn envC6 [] "Hello" "s1"
    "embedding backend down" "Hi there" [] rfl rfl

theorem get_journal_cons (e : String × Journal) (rest : Store) (sid : String) :
    DatabaseStorage.get_journal_by_session_id (e :: rest) sid
      = if e.1 = sid then some e.2
        else DatabaseStorage.get_journal_by_session_id rest sid := rfl

theorem get_journal_after_update (store : Store) (sid : String)
    (j0 newJ : Journal) (jid : String)
    (h : DatabaseStorage.get_journal_by_session_id store sid = some j0) :
    DatabaseStorage.get_journal_by_session_id
        (store.map (fun e => if e.2.id = jid then (e.1, newJ) else e)) sid
      = some (if j0.id = jid then newJ else j0) := by
  induction store with
  | nil => exact absurd h (by simp [DatabaseStorage.get_journal_by_session_id])
  | cons e rest ih =>
    by_cases he : e.1 = sid
    · rw [get_journal_cons, if_pos he, Option.some.injEq] at h
      subst h
      by_cases hid : e.2.id = jid
      · simp [get_journal_cons, he, hid]
      · simp [get_journal_cons, he, hid]
    · rw [get_journal_cons, if_neg he] at h
      by_cases hid : e.2.id = jid
      · simpa [get_journal_cons, he, hid] using ih h
      · simpa [get_journal_cons, he, hid] using ih h

/-- C1: a successfully returning non-streaming turn persists exactly the
prior history followed by the new user message and the new assistant
message: whenever the completion succeeds and the store accepts the save
(and any journal the session already owns holds exactly the prior
history), the conversation recorded for the session afterwards is
history plus the user/assistant pair, its length is the prior length plus
two, and it ends with the matched user/assistant pair. -/
theorem C1_send_message_persists_history_plus_pair
    (env : Env) (store : Store) (m sid full t : String) (h : List Message)
    (rag : Bool)
    (hcomp : env.complete (build_llm_messages m h
        (if rag then RAGService.retrieve_context env m 5 (7/10) else []))
      = .ok full)
    (hdb : env.dbSaveOk = true)
    (hprev : ∀ j0, DatabaseStorage.get_journal_by_session_id store sid = some j0 →
        j0.messages = h)
    (ht : env.generateTitle (h ++ [⟨Role.user, m⟩, ⟨Role.assistant, full⟩]) = .ok t) :
    ∃ resp store2 j,
      ChatService.send_message env store m sid h rag = (.ok resp, store2)
      ∧ DatabaseStorage.get_journal_by_session_id store2 sid = some j
      ∧ j.messages = h ++ [⟨Role.user, m⟩, ⟨Role.assistant, full⟩]
      ∧ j.messages.length = h.length + 2
      ∧ j.messages.getLast? = some ⟨Role.assistant, full⟩
      ∧ j.messages.dropLast.getLast? = some ⟨Role.user, m⟩ := by
  have hlen : (h ++ [(⟨Role.user, m⟩ : Message), ⟨Role.assistant, full⟩]).length
      = h.length + 2 := by simp
  have hlast : (h ++ [(⟨Role.user, m⟩ : Message), ⟨Role.assistant, full⟩]).getLast?
      = some ⟨Role.assistant, full⟩ := by
    rw [show h ++ [(⟨Role.user, m⟩ : Message), ⟨Role.assistant, full⟩]
        = (h ++ [⟨Role.user, m⟩]) ++ [⟨Role.assistant, full⟩] by simp,
      List.getLast?_concat]
  have hdrop : (h ++ [(⟨Role.user, m⟩ : Message), ⟨Role.assistant, full⟩]).dropLast.getLast?
      = some ⟨Role.user, m⟩ := by
    rw [show h ++ [(⟨Role.user, m⟩ : Message), ⟨Role.assistant, full⟩]
        = (h ++ [⟨Role.user, m⟩]) ++ [⟨Role.assistant, full⟩] by simp,
      List.dropLast_concat, List.getLast?_concat]
  simp only [ChatService.send_message, hcomp]
  by_cases hh : h.isEmpty
  · have hnil : h = [] := List.isEmpty_iff.mp hh
    subst hnil
    simp only [ChatService.auto_save, ChatService.titleAndId, List.isEmpty_nil,
      if_true, List.nil_append] at *
    rw [ht]
    simp only [JournalService.save_journal, Option.isNone_none, Bool.and_self,
      DatabaseStorage.save_journal, hdb, if_true, Option.getD_some]
    refine ⟨_, _, ⟨env.freshId, t, [⟨Role.user, m⟩, ⟨Role.assistant, full⟩]⟩,
      rfl, ?_, rfl, hlen, hlast, hdrop⟩
    simp [get_journal_cons]
  · simp only [ChatService.auto_save, ChatService.titleAndId, hh, Bool.false_eq_true,
      if_false]
    cases hlook : DatabaseStorage.get_journal_by_session_id store sid with
    | none =>
      rw [ht]
      simp only [JournalService.save_journal, Option.isNone_none, Bool.and_self,
        DatabaseStorage.save_journal, hdb, if_true, Option.getD_some]
      refine ⟨_, _, ⟨env.freshId, t, h ++ [⟨Role.user, m⟩, ⟨Role.assistant, full⟩]⟩,
        rfl, ?_, rfl, hlen, hlast, hdrop⟩
      simp [get_journal_cons]
    | some j0 =>
      have hj0 : j0.messages = h := hprev j0 hlook
      simp only [JournalService.save_journal, Option.isNone_some, Bool.false_and,
        DatabaseStorage.save_journal, hdb, if_true, Option.getD_some]
      refine ⟨_, _, ⟨j0.id, j0.title, h ++ [⟨Role.user, m⟩, ⟨Role.assistant, full⟩]⟩,
        rfl, ?_, rfl, by simp [hj0], hlast, hdrop⟩
      have := get_journal_after_update store sid j0
        ⟨j0.id, j0.title, h ++ [⟨Role.user, m⟩, ⟨Role.assistant, full⟩]⟩ j0.id hlook
      simpa using this

/-- Environment for the C1 witness: retrieval disabled by the caller, a
working provider, a working store. -/
def envC1 : Env where
  similaritySearch := fun _ _ => .error "unused"
  complete := fun _ => .ok "Hi there"
  streamRaw := fun _ => (["Hi ", "there"], none)
  generateTitle := fun _ => .ok "First chat"
  dbSaveOk := true
  freshId := "j-c1"

theorem C1_send_message_persists_history_plus_pair_witness :
    ∃ resp store2 j,
      ChatService.send_message envC1 [] "Hello" "s1" [] false = (.ok resp, store2)
      ∧ DatabaseStorage.get_journal_by_session_id store2 "s1" = some j
      ∧ j.messages = [] ++ [⟨Role.user, "Hello"⟩, ⟨Role.assistant, "Hi there"⟩]
      ∧ j.messages.length = List.length ([] : List Message) + 2
      ∧ j.messages.getLast? = some ⟨Role.assistant, "Hi there"⟩
      ∧ j.messages.dropLast.getLast? = some ⟨Role.user, "Hello"⟩ :=
  C1_send_message_persists_history_plus_pair envC1 [] "Hello" "s1" "Hi there"
    "First chat" [] false rfl rfl
    (fun j0 hj0 => absurd hj0 (by simp [DatabaseStorage.get_journal_by_session_id]))
    rfl

/-- C2: a turn on which the Completion Provider call fails writes nothing
to the Message Store — send_message surfaces the provider error and
returns the store unchanged — and the client removes the optimistically
appended user message, returning the visible message list to its exact
pre-turn state with the error surfaced. -/
theorem C2_provider_failure_no_write_and_rollback
    (env : Env) (store : Store) (m sid e : String) (h : List Message)
    (rag : Bool) (cenv : ClientEnv) (msgs : List Message)
    (content e2 : String) :
    (env.complete (build_llm_messages m h
        (if rag then RAGService.retrieve_context env m 5 (7/10) else []))
      = .error e →
      ChatService.send_message env store m sid h rag = (.error e, store))
    ∧ (cenv.nonStream = .error e2 →
      ChatProvider.sendMessage cenv msgs content = (msgs, some e2)) := by
  constructor
  · intro hcomp
    simp [ChatService.send_message, hcomp]
  · intro hapi
    simp [ChatProvider.sendMessage, hapi]

/-- Environment for the C2 witness: the provider raises. -/
def envC2 : Env where
  similaritySearch := fun _ _ => .error "unused"
  complete := fun _ => .error "provider unavailable"
  streamRaw := fun _ => ([], some "provider unavailable")
  generateTitle := fun _ => .ok "t"
  dbSaveOk := true
  freshId := "j-c2"

/-- Client environment for the C2 witness: the chat API call fails. -/
def cenvC2 : ClientEnv where
  streamEvents := []
  streamThrows := some "network drop"
  nonStream := .error "provider unavailable"

theorem C2_provider_failure_no_write_and_rollback_witness :
    ChatService.send_message envC2 [] "Hello" "s1" [] false
      = (.error "provider unavailable", [])
    ∧ ChatProvider.sendMessage cenvC2 [⟨Role.user, "Hi"⟩, ⟨Role.assistant, "Yo"⟩]
        "Hello"
      = ([⟨Role.user, "Hi"⟩, ⟨Role.assistant, "Yo"⟩], some "provider unavailable") :=
  ⟨(C2_provider_failure_no_write_and_rollback envC2 [] "Hello" "s1"
      "provider unavailable" [] false cenvC2 [] "x" "y").1 rfl,
   (C2_provider_failure_no_write_and_rollback envC2 [] "Hello" "s1"
      "provider unavailable" [] false cenvC2
      [⟨Role.user, "Hi"⟩, ⟨Role.assistant, "Yo"⟩] "Hello"
      "provider unavailable").2 rfl⟩

/-- Environment for C7: the provider and title generation work, but the
journal save fails (store down). -/
def envC7 : Env where
  similaritySearch := fun _ _ => .error "unused"
  complete := fun _ => .ok "Hi there"
  streamRaw := fun _ => (["Hi ", "there"], none)
  generateTitle := fun _ => .ok "A walk"
  dbSaveOk := false
  freshId := "j-c7"

/-- C7: evaluating send_message at a turn whose journal-service save
fails.  The save is swallowed by the inner handler and auto_saved is
still set to true, so the returned response reports auto_saved = true
while the store is left unchanged — nothing was persisted. -/
theorem C7_auto_saved_true_despite_failed_save :
    ChatService.send_message envC7 [] "Hello" "s1" [] false
      = (.ok ⟨⟨Role.assistant, "Hi there"⟩, [], true⟩, []) := rfl

/-- Pre-existing journal owned by session s1 in the C8 counterexample
store. -/
def journalC8 : Journal :=
  ⟨"j-old", "Old title", [⟨Role.user, "Hey"⟩, ⟨Role.assistant, "Hi"⟩]⟩

/-- Store for the C8 counterexample: session s1 already owns a
conversation. -/
def storeC8 : Store := [("s1", journalC8)]

/-- Environment for C8: everything works; the generated title is
distinguishable from the stored one. -/
def envC8 : Env where
  similaritySearch := fun _ _ => .error "unused"
  complete := fun _ => .ok "Hi there"
  streamRaw := fun _ => (["Hi ", "there"], none)
  generateTitle := fun _ => .ok "Generated title"
  dbSaveOk := true
  freshId := "j-new"

/-- C8 counterexample: on a turn with empty prior history for a session
that already owns a conversation, the orchestrator does not look the
session up: it generates a fresh title and creates a second conversation
instead of reusing the existing id and title. -/
theorem C8_first_turn_skips_session_lookup :
    DatabaseStorage.get_journal_by_session_id storeC8 "s1" = some journalC8
    ∧ ChatService.send_message envC8 storeC8 "Hello" "s1" [] false
      = (.ok ⟨⟨Role.assistant, "Hi there"⟩, [], true⟩,
         ("s1", ⟨"j-new", "Generated title",
           [⟨Role.user, "Hello"⟩, ⟨Role.assistant, "Hi there"⟩]⟩) :: storeC8) :=
  ⟨rfl, rfl⟩

/-- C8 (amended): the session lookup happens only on turns with nonempty
prior history — there, an existing conversation's id and title are
reused, and one is generated when none exists; on a turn with empty
prior history the orchestrator always generates a title via the
secondary completion call, without consulting the store. -/
theorem C8_session_lookup_policy
    (env : Env) (store : Store) (sid : String) (h cc : List Message)
    (j : Journal) (t : String) :
    (h ≠ [] → DatabaseStorage.get_journal_by_session_id store sid = some j →
        ChatService.titleAndId env store sid h cc = .ok (some j.id, j.title))
    ∧ (h ≠ [] → DatabaseStorage.get_journal_by_session_id store sid = none →
        env.generateTitle cc = .ok t →
        ChatService.titleAndId env store sid h cc = .ok (none, t))
    ∧ (env.generateTitle cc = .ok t →
        ChatService.titleAndId env store sid [] cc = .ok (none, t)) := by
  refine ⟨?_, ?_, ?_⟩
  · intro hne hlook
    have hh : h.isEmpty = false := by simp [List.isEmpty_iff, hne]
    simp [ChatService.titleAndId, hh, hlook]
  · intro hne hlook ht
    have hh : h.isEmpty = false := by simp [List.isEmpty_iff, hne]
    simp [ChatService.titleAndId, hh, hlook, ht]
  · intro ht
    simp [ChatService.titleAndId, ht]

theorem C8_session_lookup_policy_witness :
    ChatService.titleAndId envC8 storeC8 "s1" [⟨Role.user, "Hey"⟩]
        [⟨Role.user, "Hey"⟩, ⟨Role.assistant, "Hi"⟩]
      = .ok (some "j-old", "Old title")
    ∧ ChatService.titleAndId envC8 storeC8 "s1" []
        [⟨Role.user, "Hello"⟩, ⟨Role.assistant, "Hi there"⟩]
      = .ok (none, "Generated title") :=
  ⟨(C8_session_lookup_policy envC8 storeC8 "s1" [⟨Role.user, "Hey"⟩]
      [⟨Role.user, "Hey"⟩, ⟨Role.assistant, "Hi"⟩] journalC8 "x").1
      (by simp) rfl,
   (C8_session_lookup_policy envC8 storeC8 "s1" []
      [⟨Role.user, "Hello"⟩, ⟨Role.assistant, "Hi there"⟩] journalC8
      "Generated title").2.2 rfl⟩

/-- Environment for the C3 counterexample: retrieval runs and returns
zero results; the provider streams one fragment and finishes. -/
def envC3x : Env where
  similaritySearch := fun _ _ => .ok []
  complete := fun _ => .ok "Hi"
  streamRaw := fun _ => (["Hi"], none)
  generateTitle := fun _ => .ok "t"
  dbSaveOk := true
  freshId := "j-c3"

/-- C3 counterexample: with retrieval enabled and the search returning
zero results, the stream still begins with a context event (carrying an
empty context list) — contradicting the claim that a context event is
emitted only if retrieval returned results. -/
theorem C3_context_event_despite_empty_results :
    (ChatService.stream_message envC3x [] "q" "s1" [] true).1
      = [.context [], .token "Hi", .done true] := rfl

/-- C3 (amended): every stream_message event sequence is zero or one
context event — present exactly when retrieval ran (use_rag), carrying
the possibly empty retrieval results — followed by the token events of
the nonempty provider fragments in order, followed by exactly one
terminal event (done, or error when the provider stream raised), which
is the last event; when the terminal event is an error, the store is
unchanged (no persistence occurred). -/
theorem C3_stream_event_shape (env : Env) (store : Store) (m sid : String)
    (h : List Message) (rag : Bool) :
    ∃ ctx toks term,
      (ChatService.stream_message env store m sid h rag).1
        = ctx ++ toks.map StreamEvent.token ++ [term]
      ∧ (if rag
         then ctx = [StreamEvent.context (RAGService.retrieve_context env m 5 (7/10))]
         else ctx = [])
      ∧ toks = (LLMService.stream_complete env (build_llm_messages m h
          (if rag then RAGService.retrieve_context env m 5 (7/10) else []))).1
      ∧ term.isTerminal = true
      ∧ ((ChatService.stream_message env store m sid h rag).1.filter
          StreamEvent.isTerminal).length = 1
      ∧ (∀ e, term = StreamEvent.error e →
          (ChatService.stream_message env store m sid h rag).2 = store) := by
  rcases hraw : env.streamRaw (build_llm_messages m h
      (if rag then RAGService.retrieve_context env m 5 (7/10) else [])) with ⟨cs, err⟩
  have hsc1 : (LLMService.stream_complete env (build_llm_messages m h
      (if rag then RAGService.retrieve_context env m 5 (7/10) else []))).1
      = cs.filter (fun c => !c.isEmpty) := by
    simp [LLMService.stream_complete, hraw]
  cases err with
  | some e =>
    have hmsg : ChatService.stream_message env store m sid h rag
        = ((if rag
              then [StreamEvent.context (RAGService.retrieve_context env m 5 (7/10))]
              else [])
           ++ (cs.filter (fun c => !c.isEmpty)).map StreamEvent.token
           ++ [StreamEvent.error e], store) := by
      simp only [ChatService.stream_message, LLMService.stream_complete, hraw]
      cases rag <;> simp
    refine ⟨_, cs.filter (fun c => !c.isEmpty), StreamEvent.error e,
      by rw [hmsg], ?_, hsc1.symm, rfl, ?_, ?_⟩
    · cases rag <;> simp
    · rw [hmsg]
      cases rag <;>
        simp [List.filter_append, List.filter_map, Function.comp_def,
          StreamEvent.isTerminal]
    · intro e2 _
      rw [hmsg]
  | none =>
    have hmsg : ChatService.stream_message env store m sid h rag
        = ((if rag
              then [StreamEvent.context (RAGService.retrieve_context env m 5 (7/10))]
              else [])
           ++ (cs.filter (fun c => !c.isEmpty)).map StreamEvent.token
           ++ [StreamEvent.done (ChatService.auto_save env store sid h
                (h ++ [⟨Role.user, m⟩,
                  ⟨Role.assistant, concatTokens (cs.filter (fun c => !c.isEmpty))⟩])).1],
           (ChatService.auto_save env store sid h
                (h ++ [⟨Role.user, m⟩,
                  ⟨Role.assistant, concatTokens (cs.filter (fun c => !c.isEmpty))⟩])).2) := by
      simp only [ChatService.stream_message, LLMService.stream_complete, hraw]
      cases rag <;> simp
    refine ⟨_, cs.filter (fun c => !c.isEmpty),
      StreamEvent.done (ChatService.auto_save env store sid h
        (h ++ [⟨Role.user, m⟩,
          ⟨Role.assistant, concatTokens (cs.filter (fun c => !c.isEmpty))⟩])).1,
      by rw [hmsg], ?_, hsc1.symm, rfl, ?_, ?_⟩
    · cases rag <;> simp
    · rw [hmsg]
      cases rag <;>
        simp [List.filter_append, List.filter_map, Function.comp_def,
          StreamEvent.isTerminal]
    · intro e2 he2
      exact absurd he2 (by simp)

theorem C3_stream_event_shape_witness :
    ∃ ctx toks term,
      (ChatService.stream_message envC3x [] "q" "s1" [] true).1
        = ctx ++ toks.map StreamEvent.token ++ [term]
      ∧ (if true
         then ctx = [StreamEvent.context (RAGService.retrieve_context envC3x "q" 5 (7/10))]
         else ctx = [])
      ∧ toks = (LLMService.stream_complete envC3x (build_llm_messages "q" []
          (if true then RAGService.retrieve_context envC3x "q" 5 (7/10) else []))).1
      ∧ term.isTerminal = true
      ∧ ((ChatService.stream_message envC3x [] "q" "s1" [] true).1.filter
          StreamEvent.isTerminal).length = 1
      ∧ (∀ e, term = StreamEvent.error e →
          (ChatService.stream_message envC3x [] "q" "s1" [] true).2 = []) :=
  C3_stream_event_shape envC3x [] "q" "s1" [] true

theorem foldl_append_filter_ne_empty (l : List String) (acc : String) :
    (l.filter (fun c => !c.isEmpty)).foldl (· ++ ·) acc = l.foldl (· ++ ·) acc := by
  induction l generalizing acc with
  | nil => rfl
  | cons c l ih =>
    by_cases hc : c.isEmpty
    · have hce : c = "" := (String.isEmpty_iff c).mp hc
      subst hce
      simp only [List.filter_cons, List.foldl_cons]
      rw [show (!("" : String).isEmpty) = false from rfl]
      simp only [Bool.false_eq_true, if_false]
      rw [ih]
      simp
    · have hcf : c.isEmpty = false := by simpa using hc
      simp only [List.filter_cons, hcf, Bool.not_false, if_true, List.foldl_cons]
      rw [ih]

theorem concatTokens_filter_ne_empty (l : List String) :
    concatTokens (l.filter (fun c => !c.isEmpty)) = concatTokens l :=
  foldl_append_filter_ne_empty l ""

/-- C4: for the same input history and the same provider output, the
streaming and non-streaming paths produce an assistant message with
identical content — the concatenation, in emission order, of the
fragments carried by token events equals the content string returned by
the non-streaming complete call. -/
theorem C4_stream_concat_matches_nonstream
    (env : Env) (store : Store) (m sid full : String) (h : List Message)
    (rag : Bool) (chunks : List String)
    (hcomp : env.complete (build_llm_messages m h
        (if rag then RAGService.retrieve_context env m 5 (7/10) else []))
      = .ok full)
    (hraw : env.streamRaw (build_llm_messages m h
        (if rag then RAGService.retrieve_context env m 5 (7/10) else []))
      = (chunks, none))
    (hjoin : concatTokens chunks = full) :
    concatTokens ((ChatService.stream_message env store m sid h rag).1.filterMap
        StreamEvent.tokenContent?)
      = full
    ∧ ∃ resp store2,
        ChatService.send_message env store m sid h rag = (.ok resp, store2)
        ∧ resp.message.content = full := by
  constructor
  · have hmsg : (ChatService.stream_message env store m sid h rag).1
        = (if rag
             then [StreamEvent.context (RAGService.retrieve_context env m 5 (7/10))]
             else [])
           ++ (chunks.filter (fun c => !c.isEmpty)).map StreamEvent.token
           ++ [StreamEvent.done (ChatService.auto_save env store sid h
                (h ++ [⟨Role.user, m⟩,
                  ⟨Role.assistant, concatTokens (chunks.filter (fun c => !c.isEmpty))⟩])).1] := by
      simp only [ChatService.stream_message, LLMService.stream_complete, hraw]
      cases rag <;> simp
    rw [hmsg]
    have hfm : ((if rag
          then [StreamEvent.context (RAGService.retrieve_context env m 5 (7/10))]
          else [])
        ++ (chunks.filter (fun c => !c.isEmpty)).map StreamEvent.token
        ++ [StreamEvent.done (ChatService.auto_save env store sid h
            (h ++ [⟨Role.user, m⟩,
              ⟨Role.assistant, concatTokens (chunks.filter (fun c => !c.isEmpty))⟩])).1]).filterMap
          StreamEvent.tokenContent?
        = chunks.filter (fun c => !c.isEmpty) := by
      cases rag <;>
        simp [List.filterMap_append, List.filterMap_map, Function.comp_def,
          StreamEvent.tokenContent?]
    rw [hfm, concatTokens_filter_ne_empty, hjoin]
  · simp only [ChatService.send_message, hcomp]
    exact ⟨_, _, rfl, rfl⟩

/-- Environment for the C4 witness: the provider streams the fragments
of the same text it returns in batch mode. -/
def envC4 : Env where
  similaritySearch := fun _ _ => .error "unused"
  complete := fun _ => .ok "AI response"
  streamRaw := fun _ => (["AI ", "response"], none)
  generateTitle := fun _ => .ok "t"
  dbSaveOk := true
  freshId := "j-c4"

theorem C4_stream_concat_matches_nonstream_witness :
    concatTokens ((ChatService.stream_message envC4 [] "Hello" "s1" [] false).1.filterMap
        StreamEvent.tokenContent?)
      = "AI response"
    ∧ ∃ resp store2,
        ChatService.send_message envC4 [] "Hello" "s1" [] false = (.ok resp, store2)
        ∧ resp.message.content = "AI response" :=
  C4_stream_concat_matches_nonstream envC4 [] "Hello" "s1" "AI response" []
    false ["AI ", "response"] rfl rfl rfl

theorem processStreamEvents_of_no_terminal (events : List StreamEvent)
    (fc : String) (msgs : List Message)
    (hne : ∀ ev ∈ events, ev.isTerminal = false) :
    ChatContext.processStreamEvents events fc msgs = (msgs, none) := by
  induction events generalizing fc with
  | nil => rfl
  | cons ev rest ih =>
    have hrest : ∀ e ∈ rest, e.isTerminal = false :=
      fun e he => hne e (List.mem_cons_of_mem ev he)
    cases ev with
    | token c => exact ih (fc ++ c) hrest
    | context cs => exact ih fc hrest
    | done b => exact absurd (hne _ (List.mem_cons_self ..)) (by simp [StreamEvent.isTerminal])
    | error e => exact absurd (hne _ (List.mem_cons_self ..)) (by simp [StreamEvent.isTerminal])

/-- C9: when the streaming call fails before any terminal event is
received, the client retries the same turn exactly once through the
non-streaming call: a successful fallback appends the user and assistant
messages with no error, and a failing fallback is terminal — the
optimistic user message is rolled back and the fallback error is
surfaced, with no further attempt. -/
theorem C9_stream_failure_falls_back_once
    (cenv : ClientEnv) (msgs : List Message) (content err : String)
    (hne : ∀ ev ∈ cenv.streamEvents, ev.isTerminal = false)
    (hthrow : cenv.streamThrows = some err) :
    (∀ am, cenv.nonStream = .ok am →
      ChatContext.sendMessage cenv msgs content true
        = (msgs ++ [⟨Role.user, content⟩, am], none))
    ∧ (∀ e, cenv.nonStream = .error e →
      ChatContext.sendMessage cenv msgs content true = (msgs, some e)) := by
  have hstream : ChatContext.handleStreamingMessage cenv
      (msgs ++ [⟨Role.user, content⟩]) = (msgs ++ [⟨Role.user, content⟩], some err) := by
    unfold ChatContext.handleStreamingMessage
    rw [processStreamEvents_of_no_terminal cenv.streamEvents "" _ hne, hthrow]
  constructor
  · intro am hok
    simp [ChatContext.sendMessage, hstream, hok]
  · intro e herr
    simp [ChatContext.sendMessage, hstream, herr, List.dropLast_concat]

/-- Client environment for the C9 witness: the stream drops after a
context event and one token, before any terminal event; the fallback
call succeeds. -/
def cenvC9 : ClientEnv where
  streamEvents := [.context [], .token "AI "]
  streamThrows := some "connection reset"
  nonStream := .ok ⟨Role.assistant, "AI response"⟩

theorem C9_stream_failure_falls_back_once_witness :
    ChatContext.sendMessage cenvC9 [] "Hello" true
      = ([⟨Role.user, "Hello"⟩, ⟨Role.assistant, "AI response"⟩], none) :=
  (C9_stream_failure_falls_back_once cenvC9 [] "Hello" "connection reset"
      (by intro ev hev; fin_cases hev <;> rfl) rfl).1
    ⟨Role.assistant, "AI response"⟩ rfl
